import Mathlib

/-!
Shallow embedding of the notification service in `src/notifications.js` of the
botpress repository fragment, together with proofs of the specified properties.

Modelling conventions:
* JavaScript argument values are modelled by `JsVal`, with JavaScript
  truthiness and `typeof`-string testing made explicit.
* The database table backing `knex('notifications')` is a list of `Row`
  in insertion order; `helpers(knex).bool` round-trips as a Lean `Bool` and
  `helpers(knex).date.now()` / `uuid.v4()` are supplied as explicit `now` and
  `freshId` parameters of `create`.
* The caller attribution (`getOriginatingModule` plus `resolveModuleRootPath`
  plus the `_.find` over the module registry, lines 53-58) inspects the
  JavaScript call stack, which has no shallow embedding; `create` instead
  receives the result of that lookup as a `module?` parameter.
* Side effects other than the insert (the logger call of lines 98-102 and the
  `notifications.new` emit of lines 104-106) are recorded in the `Store` as
  `logLines` and `events`, so that "no side effect happened" is a statement
  about the returned store.
-/

namespace Botpress

/-- A JavaScript value as far as the notification code distinguishes them:
`undefined`, `null`, strings, numbers and booleans. -/
inductive JsVal where
  | undef : JsVal
  | nullv : JsVal
  | str : String → JsVal
  | num : Int → JsVal
  | boolean : Bool → JsVal
deriving DecidableEq, Repr

/-- JavaScript truthiness: `undefined`, `null`, the empty string, `0` and
`false` are falsy, everything else modelled here is truthy. -/
def JsVal.truthy : JsVal → Bool
  | .undef => false
  | .nullv => false
  | .str s => !s.isEmpty
  | .num n => n != 0
  | .boolean b => b

/-- Whether `typeof v` is the string `"string"`. -/
def JsVal.isString : JsVal → Bool
  | .str _ => true
  | _ => false

/-- The underlying string of a string value (only meaningful after an
`isString` test, mirroring how the source only uses string operations after
`typeof ... === 'string'` style checks). -/
def JsVal.asString : JsVal → String
  | .str s => s
  | _ => ""

/-- A registered module from the module registry (`modules`), exposing its
root directory and the display metadata read at lines 70-72. -/
structure Module where
  name : String
  root : String
  menuIcon : String
  menuText : String
deriving DecidableEq, Repr

/-- One row of the `notifications` table, with the columns written by
`toDatabase` (lines 211-224). `created_on` is a timestamp modelled as `Nat`;
`read` and `archived` are the booleans translated by `helpers(knex).bool`. -/
structure Row where
  id : String
  message : String
  level : String
  module_id : String
  module_icon : String
  module_name : String
  redirect_url : JsVal
  created_on : Nat
  read : Bool
  archived : Bool
deriving DecidableEq, Repr

/-- The in-memory notification object built at lines 81-92 and reconstructed
by `fromDatabase` (lines 226-239). -/
structure Notification where
  id : String
  message : String
  level : String
  moduleId : String
  icon : String
  name : String
  url : JsVal
  date : Nat
  sound : JsVal
  read : Bool
deriving DecidableEq, Repr

/-- The observable state: the `notifications` table plus the log lines written
through `logger` and the events emitted through `events`. -/
structure Store where
  rows : List Row
  logLines : List String
  events : List (String × Notification)
deriving DecidableEq, Repr

/-- The empty initial state. -/
def emptyStore : Store := { rows := [], logLines := [], events := [] }

/-- The arguments object destructured by `create` at line 42. -/
structure CreateArgs where
  message : JsVal
  redirectUrl : JsVal
  level : JsVal
  enableSound : JsVal
deriving DecidableEq, Repr

/-- The only explicit error kind: the `throw new Error(...)` of line 44. -/
inductive CreateError where
  | validationError : String → CreateError
deriving DecidableEq, Repr

/-- JavaScript `toLowerCase()` restricted to the basic latin letters, which
is all the level comparison of line 47 can distinguish (the candidates
`'info'`, `'error'`, `'success'` are ASCII). -/
def jsToLower (s : String) : String :=
  String.mk (s.data.map Char.toLower)

/-- Level normalization, lines 47-51 of the source:
`if (!level || typeof level !== 'string' ||
    !_.includes(['info', 'error', 'success'], level.toLowerCase()))` then
`level = 'info'` else `level = level.toLowerCase()`.
Note the list in the source is `['info', 'error', 'success']`: it does not
contain `'warning'`. -/
def normalizeLevel (level : JsVal) : String :=
  if !level.truthy || !level.isString
      || !(["info", "error", "success"].contains (jsToLower level.asString)) then
    "info"
  else
    jsToLower level.asString

/-- The value of the expression `typeof url` at line 76 of the source. `url`
is not a declared variable anywhere in that scope, so in JavaScript
`typeof url` evaluates to the string `"undefined"` (it does not throw inside
`typeof`). Consequently the test `typeof url !== 'string'` at line 76 is
always true. -/
def typeofUrl : String := "undefined"

/-- The display / redirect options computed at lines 60-79. When a module
match was found the source sets `options.url = redirectUrl` and then
overwrites it with the module path whenever
`!redirectUrl || typeof url !== 'string'` holds - which, by `typeofUrl`,
is always. -/
structure CreateOptions where
  moduleId : String
  icon : String
  name : String
  url : JsVal
deriving DecidableEq, Repr

/-- Lines 60-79 of the source. -/
def mkOptions (redirectUrl : JsVal) (module? : Option Module) : CreateOptions :=
  let base : CreateOptions :=
    { moduleId := "botpress", icon := "view_module", name := "botpress",
      url := if redirectUrl.isString then redirectUrl else JsVal.str "/" }
  match module? with
  | none => base
  | some m =>
    let opts : CreateOptions :=
      { moduleId := m.name, icon := m.menuIcon, name := m.menuText,
        url := redirectUrl }
    if !redirectUrl.truthy || typeofUrl != "string" then
      { opts with url := JsVal.str ("/modules/" ++ m.name) }
    else
      opts

/-- The notification object of lines 81-92. `freshId` stands for `uuid.v4()`
and `now` for `new Date()`. The source computes `sound` as
`enableSound || false`, which is `enableSound` itself when truthy and the
boolean `false` otherwise. -/
def mkNotification (args : CreateArgs) (module? : Option Module)
    (freshId : String) (now : Nat) : Notification :=
  let level := normalizeLevel args.level
  let options := mkOptions args.redirectUrl module?
  { id := freshId, message := args.message.asString, level := level,
    moduleId := options.moduleId, icon := options.icon, name := options.name,
    url := options.url, date := now,
    sound := if args.enableSound.truthy then args.enableSound
             else JsVal.boolean false,
    read := false }

/-- `toDatabase` (lines 211-224). Note that it writes no `sound` column, that
`created_on` is a fresh store timestamp, and that `read` and `archived` are
hard-coded to the store representation of `false`. -/
def toDatabase (n : Notification) (now : Nat) : Row :=
  { id := n.id, message := n.message, level := n.level,
    module_id := n.moduleId, module_icon := n.icon, module_name := n.name,
    redirect_url := n.url, created_on := now, read := false,
    archived := false }

/-- `fromDatabase` (lines 226-239). `sound` is hard-coded to `false`. -/
def fromDatabase (r : Row) : Notification :=
  { id := r.id, message := r.message, level := r.level,
    moduleId := r.module_id, icon := r.module_icon, name := r.module_name,
    url := r.redirect_url, date := r.created_on,
    sound := JsVal.boolean false, read := r.read }

/-- `create` (lines 42-107). The validation of lines 43-45 throws before any
other statement runs, so on failure the returned store is the input store
untouched and the second component carries the error. On success the insert
(line 94-96), the log line (lines 98-102) and the `notifications.new` emit
(lines 104-106) happen in that order. -/
def create (args : CreateArgs) (module? : Option Module) (freshId : String)
    (now : Nat) (s : Store) : Store × Option CreateError :=
  if !args.message.truthy || !args.message.isString then
    (s, some (CreateError.validationError
        "message is mandatory and should be a string"))
  else
    let n := mkNotification args module? freshId now
    let s1 : Store := { s with rows := s.rows ++ [toDatabase n now] }
    let logMessage := "[notification::" ++ n.moduleId ++ "] " ++ n.message
    let s2 : Store := { s1 with logLines := s1.logLines ++ [logMessage] }
    let s3 : Store := { s2 with events := s2.events ++ [("notifications.new", n)] }
    (s3, none)

/-- The descending `created_on` ordering used by
`orderBy('created_on', 'DESC')`. -/
def newerFirst (a b : Row) : Prop := b.created_on ≤ a.created_on

instance : DecidableRel newerFirst :=
  fun a b => Nat.decLe b.created_on a.created_on

instance : IsTotal Row newerFirst :=
  ⟨fun a b => Nat.le_total b.created_on a.created_on⟩

instance : IsTrans Row newerFirst :=
  ⟨fun _ _ _ hab hbc => Nat.le_trans hbc hab⟩

/-- The rows selected by `getInbox` (lines 125-131): `archived = false`,
newest first, capped at 100. -/
def inboxRows (s : Store) : List Row :=
  (((s.rows.filter (fun r => r.archived == false)).insertionSort newerFirst).take 100)

/-- `getInbox` (lines 125-131). -/
def getInbox (s : Store) : List Notification :=
  (inboxRows s).map fromDatabase

/-- The rows selected by `getArchived` (lines 113-119): `archived = true`,
newest first, capped at 100. -/
def archivedRows (s : Store) : List Row :=
  (((s.rows.filter (fun r => r.archived == true)).insertionSort newerFirst).take 100)

/-- `getArchived` (lines 113-119). -/
def getArchived (s : Store) : List Notification :=
  (archivedRows s).map fromDatabase

/-- `archive` (lines 138-143): `update({ archived: true })` on the rows whose
`id` matches (every matching row; no error when none matches). -/
def archive (id : String) (s : Store) : Store :=
  { s with rows := s.rows.map (fun r =>
      if r.id == id then { r with archived := true } else r) }

/-- `archiveAll` (lines 149-153): `update({ archived: true })` on every row. -/
def archiveAll (s : Store) : Store :=
  { s with rows := s.rows.map (fun r => { r with archived := true }) }

/-- `markAsRead` (lines 160-165): `update({ read: true })` on the rows whose
`id` matches. -/
def markAsRead (id : String) (s : Store) : Store :=
  { s with rows := s.rows.map (fun r =>
      if r.id == id then { r with read := true } else r) }

/-- `markAllAsRead` (lines 171-175): `update({ read: true })` on every row. -/
def markAllAsRead (s : Store) : Store :=
  { s with rows := s.rows.map (fun r => { r with read := true }) }

/-- One mutating operation of the public surface. -/
inductive Op where
  | createOp (args : CreateArgs) (module? : Option Module)
      (freshId : String) (now : Nat)
  | archiveOp (id : String)
  | archiveAllOp
  | markAsReadOp (id : String)
  | markAllAsReadOp
deriving Repr

/-- Apply one operation to the store (for `create`, the resulting store,
whether or not validation succeeded). -/
def applyOp : Op → Store → Store
  | .createOp a m f n, s => (create a m f n s).1
  | .archiveOp id, s => archive id s
  | .archiveAllOp, s => archiveAll s
  | .markAsReadOp id, s => markAsRead id s
  | .markAllAsReadOp, s => markAllAsRead s

/-- Insert `k` notifications into the empty store, each a valid `create` call,
with strictly increasing creation times `0, 1, ..., k-1`. -/
def insertMany (k : Nat) : Store :=
  (List.range k).foldl
    (fun s i =>
      (create { message := JsVal.str "hello", redirectUrl := JsVal.undef,
                level := JsVal.undef, enableSound := JsVal.undef }
        none (toString i) i s).1)
    emptyStore

/-! ### Helper lemmas -/

/-- The normalized level is always one of the three values the source lists
at line 47. -/
theorem normalizeLevel_mem_three (v : JsVal) :
    normalizeLevel v ∈ ["info", "error", "success"] := by
  unfold normalizeLevel
  split
  · simp
  · rename_i h
    simp only [Bool.or_eq_true, Bool.not_eq_true', not_or, Bool.not_eq_false] at h
    exact List.mem_of_elem_eq_true h.2

/-- Each row returned from the inbox query comes from the table and is not
archived. -/
theorem mem_inboxRows {s : Store} {r : Row} (h : r ∈ inboxRows s) :
    r ∈ s.rows ∧ r.archived = false := by
  unfold inboxRows at h
  have h1 := List.mem_of_mem_take h
  rw [List.mem_insertionSort] at h1
  have h2 := List.mem_filter.mp h1
  exact ⟨h2.1, by simpa using h2.2⟩

/-- Each row returned from the archived query comes from the table and is
archived. -/
theorem mem_archivedRows {s : Store} {r : Row} (h : r ∈ archivedRows s) :
    r ∈ s.rows ∧ r.archived = true := by
  unfold archivedRows at h
  have h1 := List.mem_of_mem_take h
  rw [List.mem_insertionSort] at h1
  have h2 := List.mem_filter.mp h1
  exact ⟨h2.1, by simpa using h2.2⟩

/-- The rows of the store after `create`: unchanged on validation failure,
extended by exactly the row built by `toDatabase` on success. -/
theorem create_rows_eq (a : CreateArgs) (m : Option Module) (f : String)
    (n : Nat) (s : Store) :
    ((create a m f n s).1.rows = s.rows) ∨
    ((create a m f n s).1.rows
      = s.rows ++ [toDatabase (mkNotification a m f n) n]) := by
  unfold create
  split
  · exact Or.inl rfl
  · exact Or.inr rfl

/-! ### Claims -/

/-- C1. The claim: for every `level` argument that is a case variant of one
of the four allowed values (info, success, error, warning) the stored level
is the corresponding lowercase value, everything else coerces to info. The
code (line 47) checks membership in `['info', 'error', 'success']` only, so
a level of "warning" (in any case) is stored as "info", contradicting both
the claim and the source's own doc comment at line 37, which lists warning
as a supported level. -/
theorem create_warning_level_stored_as_info :
    (create { message := JsVal.str "hi", redirectUrl := JsVal.undef,
              level := JsVal.str "warning", enableSound := JsVal.undef }
        none "id0" 7 emptyStore).1.rows.map Row.level = ["info"]
    ∧ normalizeLevel (JsVal.str "warning") = "info"
    ∧ normalizeLevel (JsVal.str "WARNING") = "info"
    ∧ normalizeLevel (JsVal.str "Warning") = "info"
    ∧ normalizeLevel (JsVal.str "ERROR") = "error"
    ∧ normalizeLevel (JsVal.str "Error") = "error"
    ∧ normalizeLevel (JsVal.str "SUCCESS") = "success"
    ∧ normalizeLevel (JsVal.str "INFO") = "info"
    ∧ normalizeLevel (JsVal.str "bogus") = "info"
    ∧ normalizeLevel JsVal.undef = "info" := by
  decide

/-- C2. The claim: a string `redirectUrl` is always stored as the url. The
code (line 76) tests `typeof url !== 'string'` where `url` is an undeclared
identifier, so when a module match is found the url is always overwritten
with `/modules/<name>`, even when `redirectUrl` is a string - contradicting
the claim and the source's own doc comment at lines 35-36. Without a module
match the string `redirectUrl` is kept. -/
theorem create_redirectUrl_overridden_on_module_match :
    (create { message := JsVal.str "hi", redirectUrl := JsVal.str "/custom",
              level := JsVal.undef, enableSound := JsVal.undef }
        (some { name := "mymod", root := "/r", menuIcon := "ic",
                menuText := "My Mod" })
        "id0" 7 emptyStore).1.rows.map Row.redirect_url
      = [JsVal.str "/modules/mymod"]
    ∧ (create { message := JsVal.str "hi", redirectUrl := JsVal.str "/custom",
                level := JsVal.undef, enableSound := JsVal.undef }
        none "id0" 7 emptyStore).1.rows.map Row.redirect_url
      = [JsVal.str "/custom"] := by
  decide

/-- C3. `create` with a missing (undefined) or non-string `message` fails
with the validation error, and the returned store is exactly the input
store: no row inserted, no log line, no event. -/
theorem create_invalid_message_rejected (args : CreateArgs)
    (module? : Option Module) (freshId : String) (now : Nat) (s : Store)
    (h : args.message = JsVal.undef ∨ args.message.isString = false) :
    create args module? freshId now s =
      (s, some (CreateError.validationError
        "message is mandatory and should be a string")) := by
  have hns : args.message.isString = false := by
    rcases h with h | h
    · rw [h]; rfl
    · exact h
  simp [create, hns]

/-- C3 witness. -/
theorem create_invalid_message_rejected_w :
    create { message := JsVal.undef, redirectUrl := JsVal.undef,
             level := JsVal.undef, enableSound := JsVal.undef }
        none "id0" 0 emptyStore =
      (emptyStore, some (CreateError.validationError
        "message is mandatory and should be a string")) :=
  create_invalid_message_rejected _ none "id0" 0 emptyStore (Or.inl rfl)

/-- C4. Every valid `create` call (message a non-empty string) succeeds and
appends exactly one row, which has `read = false`, `archived = false`, and a
level among the four allowed values. -/
theorem create_valid_stored_defaults (args : CreateArgs)
    (module? : Option Module) (freshId : String) (now : Nat) (s : Store)
    (m : String) (hmsg : args.message = JsVal.str m) (hne : m ≠ "") :
    ∃ row : Row,
      (create args module? freshId now s).1.rows = s.rows ++ [row] ∧
      (create args module? freshId now s).2 = none ∧
      row.read = false ∧ row.archived = false ∧
      row.level ∈ ["info", "success", "error", "warning"] := by
  have hmE : m.isEmpty = false := by
    cases hmE : m.isEmpty
    · rfl
    · exact absurd ((String.isEmpty_iff m).mp hmE) hne
  refine ⟨toDatabase (mkNotification args module? freshId now) now,
    ?_, ?_, rfl, rfl, ?_⟩
  · simp [create, hmsg, JsVal.truthy, JsVal.isString, hmE]
  · simp [create, hmsg, JsVal.truthy, JsVal.isString, hmE]
  · have h3 := normalizeLevel_mem_three args.level
    have hlvl : (toDatabase (mkNotification args module? freshId now) now).level
        = normalizeLevel args.level := rfl
    rw [hlvl]
    simp only [List.mem_cons, List.not_mem_nil, or_false] at h3 ⊢
    tauto

/-- C4 witness. -/
theorem create_valid_stored_defaults_w :
    ∃ row : Row,
      (create { message := JsVal.str "hi", redirectUrl := JsVal.undef,
                level := JsVal.undef, enableSound := JsVal.undef }
          none "id0" 0 emptyStore).1.rows = emptyStore.rows ++ [row] ∧
      (create { message := JsVal.str "hi", redirectUrl := JsVal.undef,
                level := JsVal.undef, enableSound := JsVal.undef }
          none "id0" 0 emptyStore).2 = none ∧
      row.read = false ∧ row.archived = false ∧
      row.level ∈ ["info", "success", "error", "warning"] :=
  create_valid_stored_defaults _ none "id0" 0 emptyStore "hi" rfl (by decide)

/-- C5. Every notification returned by `getInbox` comes from a stored row
with `archived = false`, and every notification returned by `getArchived`
comes from a stored row with `archived = true`. -/
theorem inbox_archived_partition (s : Store) :
    (∀ n ∈ getInbox s, ∃ r ∈ s.rows, r.archived = false ∧ n = fromDatabase r) ∧
    (∀ n ∈ getArchived s, ∃ r ∈ s.rows, r.archived = true ∧ n = fromDatabase r) := by
  constructor
  · intro n hn
    unfold getInbox at hn
    obtain ⟨r, hr, rfl⟩ := List.mem_map.mp hn
    obtain ⟨h1, h2⟩ := mem_inboxRows hr
    exact ⟨r, h1, h2, rfl⟩
  · intro n hn
    unfold getArchived at hn
    obtain ⟨r, hr, rfl⟩ := List.mem_map.mp hn
    obtain ⟨h1, h2⟩ := mem_archivedRows hr
    exact ⟨r, h1, h2, rfl⟩

set_option maxRecDepth 100000 in
/-- C6. Both queries return at most 100 records, ordered newest-first by
creation time; and after inserting 150 notifications into the empty store,
`getInbox` returns exactly 100 records, the 100 most recently created
(creation times 149 down to 50), newest first. -/
theorem inbox_cap_and_newest_first :
    (∀ s : Store,
      (getInbox s).length ≤ 100 ∧ (getArchived s).length ≤ 100 ∧
      (getInbox s).Pairwise (fun a b => b.date ≤ a.date) ∧
      (getArchived s).Pairwise (fun a b => b.date ≤ a.date)) ∧
    (getInbox (insertMany 150)).length = 100 ∧
    (getInbox (insertMany 150)).map Notification.date
      = (List.range 100).map (fun i => 149 - i) := by
  refine ⟨fun s => ⟨?_, ?_, ?_, ?_⟩, by decide, by decide⟩
  · simp only [getInbox, inboxRows, List.length_map, List.length_take]
    exact Nat.min_le_left _ _
  · simp only [getArchived, archivedRows, List.length_map, List.length_take]
    exact Nat.min_le_left _ _
  · unfold getInbox inboxRows
    rw [List.pairwise_map]
    have hs := List.sorted_insertionSort newerFirst
      (s.rows.filter (fun r => r.archived == false))
    have ht := List.Pairwise.sublist (List.take_sublist 100 _) hs
    exact ht.imp (fun h => h)
  · unfold getArchived archivedRows
    rw [List.pairwise_map]
    have hs := List.sorted_insertionSort newerFirst
      (s.rows.filter (fun r => r.archived == true))
    have ht := List.Pairwise.sublist (List.take_sublist 100 _) hs
    exact ht.imp (fun h => h)

/-- C7. No operation moves a row's `read` flag from `true` to `false` or its
`archived` flag from `true` to `false`: if row `i` is `r` before an operation
and `r2` after, both flags transition monotonically. (`create` only appends;
the update operations only ever write `true` into these flags.) -/
theorem flags_monotone (op : Op) (s : Store) (i : Nat) (r r2 : Row)
    (h : s.rows[i]? = some r) (h2 : (applyOp op s).rows[i]? = some r2) :
    (r.read = true → r2.read = true) ∧
    (r.archived = true → r2.archived = true) := by
  cases op with
  | createOp a m f n =>
    simp only [applyOp] at h2
    rcases create_rows_eq a m f n s with he | he <;> rw [he] at h2
    · rw [h] at h2
      cases h2
      exact ⟨fun x => x, fun x => x⟩
    · have hi : i < s.rows.length := (List.getElem?_eq_some.mp h).1
      rw [List.getElem?_append_left hi, h] at h2
      cases h2
      exact ⟨fun x => x, fun x => x⟩
  | archiveOp id =>
    simp only [applyOp, archive, List.getElem?_map, h, Option.map_some',
      Option.some.injEq] at h2
    subst h2
    constructor <;> intro hx <;> split <;> simp_all
  | archiveAllOp =>
    simp only [applyOp, archiveAll, List.getElem?_map, h, Option.map_some',
      Option.some.injEq] at h2
    subst h2
    exact ⟨fun x => x, fun _ => rfl⟩
  | markAsReadOp id =>
    simp only [applyOp, markAsRead, List.getElem?_map, h, Option.map_some',
      Option.some.injEq] at h2
    subst h2
    constructor <;> intro hx <;> split <;> simp_all
  | markAllAsReadOp =>
    simp only [applyOp, markAllAsRead, List.getElem?_map, h, Option.map_some',
      Option.some.injEq] at h2
    subst h2
    exact ⟨fun _ => rfl, fun x => x⟩

/-- A sample stored row used to instantiate hypotheses concretely. -/
def sampleRow : Row :=
  { id := "a", message := "hi", level := "info", module_id := "botpress",
    module_icon := "view_module", module_name := "botpress",
    redirect_url := JsVal.str "/", created_on := 3, read := true,
    archived := false }

/-- The sample row after archiving. -/
def sampleRow2 : Row := { sampleRow with archived := true }

/-- A sample store holding the sample row. -/
def sampleStore : Store :=
  { rows := [sampleRow], logLines := [], events := [] }

/-- C7 witness. -/
theorem flags_monotone_w :
    (sampleRow.read = true → sampleRow2.read = true) ∧
    (sampleRow.archived = true → sampleRow2.archived = true) :=
  flags_monotone Op.archiveAllOp sampleStore 0 sampleRow sampleRow2
    (by decide) (by decide)

/-- C8. `markAsRead id` is idempotent, and it changes nothing except that
the rows whose id is the given one get `read := true`: log lines, events,
the number of rows, and every field of every row other than the `read` flag
of the matching rows are unchanged. -/
theorem markAsRead_idempotent_frame (id : String) (s : Store) :
    markAsRead id (markAsRead id s) = markAsRead id s ∧
    (markAsRead id s).logLines = s.logLines ∧
    (markAsRead id s).events = s.events ∧
    (markAsRead id s).rows.length = s.rows.length ∧
    ∀ (i : Nat) (r : Row), s.rows[i]? = some r →
      (markAsRead id s).rows[i]? =
        some (if r.id = id then { r with read := true } else r) := by
  refine ⟨?_, rfl, rfl, by simp [markAsRead], ?_⟩
  · have hmap : (s.rows.map
        (fun r => if r.id == id then { r with read := true } else r)).map
          (fun r => if r.id == id then { r with read := true } else r)
        = s.rows.map (fun r => if r.id == id then { r with read := true } else r) := by
      rw [List.map_map]
      apply List.map_congr_left
      intro r _
      by_cases hr : r.id = id <;> simp [Function.comp, hr]
    exact congrArg (fun v => Store.mk v s.logLines s.events) hmap
  · intro i r h
    simp only [markAsRead, List.getElem?_map, h, Option.map_some',
      Option.some.injEq]
    by_cases hr : r.id = id <;> simp [hr]

/-- C9. `archive` of an id no row has succeeds (it is an update matching
nothing, not an error) and changes nothing: the resulting store equals the
input store. -/
theorem archive_nonexistent_noop (id : String) (s : Store)
    (h : ∀ r ∈ s.rows, r.id ≠ id) : archive id s = s := by
  have hmap : s.rows.map
      (fun r => if r.id == id then { r with archived := true } else r)
        = s.rows := by
    have h1 : s.rows.map
        (fun r => if r.id == id then { r with archived := true } else r)
          = s.rows.map (fun r => r) := by
      apply List.map_congr_left
      intro r hr
      simp [h r hr]
    rw [h1]
    simp
  unfold archive
  rw [hmap]

/-- C9 witness. -/
theorem archive_nonexistent_noop_w :
    archive "zzz" sampleStore = sampleStore :=
  archive_nonexistent_noop "zzz" sampleStore (by decide)

/-- C10. The sound flag is never persisted: `toDatabase` writes no sound
column and `fromDatabase` fixes `sound` to `false`, so after any `create`
call - whatever its `enableSound` argument - every record returned by
`getInbox` or `getArchived` has `sound = false`. -/
theorem sound_never_persisted (args : CreateArgs) (module? : Option Module)
    (freshId : String) (now : Nat) (s : Store) :
    (∀ n ∈ getInbox (create args module? freshId now s).1,
      n.sound = JsVal.boolean false) ∧
    (∀ n ∈ getArchived (create args module? freshId now s).1,
      n.sound = JsVal.boolean false) := by
  constructor
  · intro n hn
    unfold getInbox at hn
    obtain ⟨r, -, rfl⟩ := List.mem_map.mp hn
    rfl
  · intro n hn
    unfold getArchived at hn
    obtain ⟨r, -, rfl⟩ := List.mem_map.mp hn
    rfl

end Botpress
